import Mathlib

/-!
Shallow embedding of the weather-resolution pipeline of `src/weather.py`
(`_http_get_json`, `geocode` with its two providers, `get_current_weather`,
`fetch_sensor_moisture`), together with proofs settling the frozen claims.

JSON documents decoded by `json.loads` are modelled by `JVal`; JSON numbers
are rationals (standard JSON numerals carry no NaN/Infinity).  Python-level
operations that the source applies to decoded values (`or` fallbacks,
truthiness tests, `int()` / `float()` / `str()` conversions, `dict.get`,
`list.index`) are modelled by the `py...` functions below; each one's doc
comment records the modelling boundary where Python's behaviour on exotic
inputs (non-JSON objects, locale formats) is outside the model.
-/

/-- A JSON value as decoded by `json.loads`: null, booleans, numbers
(rationals; standard JSON has no NaN/Infinity), strings, arrays and objects
(objects kept as field lists; `json.loads` keeps the last duplicate key,
which `jfind` below mirrors). -/
inductive JVal where
  | null : JVal
  | bool (b : Bool) : JVal
  | num (q : ℚ) : JVal
  | str (s : String) : JVal
  | arr (xs : List JVal) : JVal
  | obj (fields : List (String × JVal)) : JVal

/-- Python truthiness of a decoded JSON value: `None`, `False`, `0`, `""`,
`[]`, `{}` are falsy, everything else truthy (used by the source's
`x or default` fallbacks and bare `if x:` tests). -/
def pyTruthy : JVal → Bool
  | .null => false
  | .bool b => b
  | .num q => q != 0
  | .str s => s != ""
  | .arr xs => !xs.isEmpty
  | .obj fs => !fs.isEmpty

/-- Python `a or b` on decoded values: `a` when truthy, else `b`. -/
def pyOr (a b : JVal) : JVal := if pyTruthy a then a else b

/-- Value of a key in a decoded JSON object; the last binding wins, as in
`json.loads` (later duplicate keys override earlier ones).  `none` models a
missing key. -/
def jfind (fs : List (String × JVal)) (key : String) : Option JVal :=
  fs.foldl (fun acc kv => if kv.1 = key then some kv.2 else acc) none

/-- Python `dict.get(key)` on a decoded object: the stored value, or `None`
(JSON null) when the key is missing. -/
def jgetD (fs : List (String × JVal)) (key : String) : JVal :=
  (jfind fs key).getD .null

/-- Python `==` between decoded JSON values, as used by `in` and
`list.index` in the source.  Scalar comparisons (including the bool/number
cross cases, `True == 1`) are exact; container comparisons (list/list and
dict/dict, which Python compares elementwise) are modelled as `False` — the
compared positions in this development only ever hold scalar timestamps. -/
def pyEq : JVal → JVal → Bool
  | .null, .null => true
  | .bool a, .bool b => a == b
  | .bool a, .num q => (if a then (1 : ℚ) else 0) == q
  | .num q, .bool b => q == (if b then (1 : ℚ) else 0)
  | .num a, .num b => a == b
  | .str a, .str b => a == b
  | _, _ => false

/-- Numeric value of a run of decimal digit characters. -/
def digitsVal (ds : List Char) : ℕ := ds.foldl (fun n c => 10 * n + (c.toNat - 48)) 0

/-- ASCII whitespace as stripped by Python's `str.strip()` before numeric
conversion. -/
def isPySpace (c : Char) : Bool :=
  c == ' ' || c == '\t' || c == '\n' || c == '\r' || c == '\x0b' || c == '\x0c'

/-- Leading and trailing whitespace removed, as `float()`/`int()` do. -/
def stripChars (cs : List Char) : List Char :=
  ((cs.dropWhile isPySpace).reverse.dropWhile isPySpace).reverse

/-- Optionally signed run of decimal digits: a Python integer literal (also
the exponent part of a float literal).  Digit underscores are outside the
model; no theorem below touches such strings. -/
def parseIntLit (cs : List Char) : Option ℤ :=
  match cs with
  | '+' :: ds => if !ds.isEmpty && ds.all Char.isDigit then some (digitsVal ds : ℤ) else none
  | '-' :: ds => if !ds.isEmpty && ds.all Char.isDigit then some (-(digitsVal ds : ℤ)) else none
  | ds => if !ds.isEmpty && ds.all Char.isDigit then some (digitsVal ds : ℤ) else none

/-- Unsigned decimal mantissa `digits [ . digits ]` with at least one digit,
as accepted by Python's `float()`. -/
def parseMantissa (cs : List Char) : Option ℚ :=
  let intds := cs.takeWhile Char.isDigit
  let rest := cs.dropWhile Char.isDigit
  match rest with
  | [] => if intds.isEmpty then none else some (digitsVal intds : ℚ)
  | c :: fracds =>
    if c == '.' && fracds.all Char.isDigit && (!intds.isEmpty || !fracds.isEmpty) then
      some ((digitsVal intds : ℚ) + (digitsVal fracds : ℚ) / (10 : ℚ) ^ fracds.length)
    else none

/-- Unsigned float literal: mantissa with optional `e`/`E` exponent whose
digits go through `parseIntLit`. -/
def parseUnsignedFloat (cs : List Char) : Option ℚ :=
  let mant := cs.takeWhile (fun c => !(c == 'e' || c == 'E'))
  let rest := cs.dropWhile (fun c => !(c == 'e' || c == 'E'))
  match rest with
  | [] => parseMantissa mant
  | _ :: expcs =>
    match parseMantissa mant, parseIntLit expcs with
    | some m, some e => some (m * (10 : ℚ) ^ e)
    | _, _ => none

/-- Python `float(s)` on a string: strip surrounding whitespace, optional
sign, decimal mantissa, optional exponent; `none` models the raised
`ValueError`.  (Python's `inf`/`nan` words and digit underscores are outside
the model; no theorem below touches such strings.) -/
def parsePyFloat (s : String) : Option ℚ :=
  match stripChars s.toList with
  | '+' :: cs => parseUnsignedFloat cs
  | '-' :: cs => (parseUnsignedFloat cs).map Neg.neg
  | cs => parseUnsignedFloat cs

/-- Truncation toward zero, the behaviour of Python `int()` on a float. -/
def ratTrunc (q : ℚ) : ℤ := if q < 0 then -⌊-q⌋ else ⌊q⌋

/-- Python `int(v)` on a decoded JSON value; `none` models the raised
`TypeError`/`ValueError` (null, containers, non-integer strings).  Integer
strings are stripped and read as signed decimal literals, matching
Python's `int(str)`. -/
def pyInt : JVal → Option ℤ
  | .bool b => some (if b then 1 else 0)
  | .num q => some (ratTrunc q)
  | .str s => parseIntLit (stripChars s.toList)
  | _ => none

/-- Python `float(v)` on a decoded JSON value; `none` models the raised
`TypeError`/`ValueError` (null, containers, unparseable strings). -/
def pyFloat : JVal → Option ℚ
  | .bool b => some (if b then 1 else 0)
  | .num q => some q
  | .str s => parsePyFloat s
  | _ => none

/-- Python `str(v)` on a decoded JSON value.  Exact for strings, booleans
and `None`; numeric rendering collapses the int/float distinction that the
`JVal.num` rational already collapses, and container `repr` is abbreviated —
in the source this conversion is only applied to place-name fields, which
are strings in every theorem below. -/
def pyStr : JVal → String
  | .null => "None"
  | .bool b => if b then "True" else "False"
  | .num q => if q.den = 1 then toString q.num else toString q
  | .str s => s
  | .arr _ => "[...]"
  | .obj _ => "\x7b...\x7d"

/-- First index of the hourly-times list whose element compares `==` equal
to the needle; models the source's `current_time in times` test
(`isSome`) together with `times.index(current_time)` (the index held),
both of which scan with Python `==`. -/
def pyIndex (needle : JVal) : List JVal → Option ℕ
  | [] => none
  | t :: ts => if pyEq t needle then some 0 else (pyIndex needle ts).map Nat.succ

/-- The fixed WMO-style weather-code table of `src/weather.py`
(`_WEATHER_CODE`, lines 22-51). -/
def WEATHER_CODE : List (ℤ × String) :=
  [(0, "Clear sky"), (1, "Mainly clear"), (2, "Partly cloudy"), (3, "Overcast"),
   (45, "Fog"), (48, "Depositing rime fog"),
   (51, "Light drizzle"), (53, "Moderate drizzle"), (55, "Dense drizzle"),
   (56, "Light freezing drizzle"), (57, "Dense freezing drizzle"),
   (61, "Slight rain"), (63, "Moderate rain"), (65, "Heavy rain"),
   (66, "Light freezing rain"), (67, "Heavy freezing rain"),
   (71, "Slight snow fall"), (73, "Moderate snow fall"), (75, "Heavy snow fall"),
   (77, "Snow grains"),
   (80, "Slight rain showers"), (81, "Moderate rain showers"), (82, "Violent rain showers"),
   (85, "Slight snow showers"), (86, "Heavy snow showers"),
   (95, "Thunderstorm"), (96, "Thunderstorm with slight hail"),
   (99, "Thunderstorm with heavy hail")]

/-- Line 205 of the source:
`_WEATHER_CODE.get(int(code), "Unknown") if code is not None else "Unknown"`.
`none` models `int(code)` raising (a non-null, non-convertible code), which
the source does not catch. -/
def describeCode (code : JVal) : Option String :=
  match code with
  | .null => some "Unknown"
  | v => (pyInt v).map (fun c => ((WEATHER_CODE.lookup c).getD "Unknown"))

/-- Elements of an hourly series value after the source's `or []` fallback:
a falsy value becomes `[]`, an array yields its elements.  A truthy
non-array is modelled as `none`, the caught-exception branch — the
`len`/`in`/index operations the source then applies are only in-model for
JSON-array series (the only series shape these APIs produce). -/
def seqAfterOr (v : JVal) : Option (List JVal) :=
  if pyTruthy v then
    match v with
    | .arr xs => some xs
    | _ => none
  else some []

/-- Conversion applied to the selected probability entry (lines 216/218):
`int(p) if p is not None else None`, with a raising `int(p)` caught by the
surrounding `except` into `None` as well. -/
def pyIntOfEntry (v : JVal) : Option ℤ :=
  match v with
  | .null => none
  | v => pyInt v

/-- Rain-probability extraction of `get_current_weather` (lines 207-220),
given the fields of the (dict) `current` value and the raw value at the
payload's `hourly` key.  All failure paths inside the source's `try` block
end at `none` (`rain_prob = None`). -/
def rainProbOf (cf : List (String × JVal)) (hourly_v : JVal) : Option ℤ :=
  let hf? : Option (List (String × JVal)) :=
    if pyTruthy hourly_v then
      match hourly_v with
      | .obj fs => some fs
      | _ => none
    else some []
  match hf? with
  | none => none
  | some hf =>
    match seqAfterOr (jgetD hf "time"), seqAfterOr (jgetD hf "precipitation_probability") with
    | some times, some probs =>
      let ct := jgetD cf "time"
      if pyTruthy ct && !times.isEmpty && !probs.isEmpty && times.length == probs.length then
        match pyIndex ct times with
        | some idx => pyIntOfEntry (probs.getD idx .null)
        | none => pyIntOfEntry (probs.getD 0 .null)
      else none
    | _, _ => none

/-- The weather reading assembled by `get_current_weather` (lines 222-231).
Pass-through provider fields are kept as raw decoded values; `condition` is
the mapped description and `rain_probability_pct` the aligned probability. -/
structure WeatherOut where
  temperature_c : JVal
  humidity_pct : JVal
  wind_kph : JVal
  precip_mm : JVal
  weather_code : JVal
  condition : String
  rain_probability_pct : Option ℤ
  asof : JVal

/-- Pure core of `get_current_weather` (lines 200-231), from the decoded
forecast payload (a JSON object, as the forecast endpoint returns) to the
reading.  `now` is the wall-clock ISO timestamp used when the provider
omits `current.time`.  `.error ()` models the uncaught raises: the explicit
provider error (line 201), a truthy non-dict `current` (line 204's
`.get` on it), and a non-convertible weather code (line 205's `int`). -/
def getCurrentWeatherCore (now : String) (p : List (String × JVal)) : Except Unit WeatherOut :=
  if pyTruthy (jgetD p "error") then .error () else
  match pyOr (jgetD p "current") (.obj []) with
  | .obj cf =>
    match describeCode (jgetD cf "weather_code") with
    | none => .error ()
    | some dsc =>
      .ok {
        temperature_c := jgetD cf "temperature_2m"
        humidity_pct := jgetD cf "relative_humidity_2m"
        wind_kph := jgetD cf "wind_speed_10m"
        precip_mm := jgetD cf "precipitation"
        weather_code := jgetD cf "weather_code"
        condition := dsc
        rain_probability_pct := rainProbOf cf (jgetD p "hourly")
        asof := pyOr (jgetD cf "time") (.str now) }
  | _ => .error ()

/-- Outcome of one underlying HTTP attempt inside `_http_get_json`:
a decoded JSON body, an `urllib.error.HTTPError` with its status code and
optional `Retry-After` header (absent header or absent header mapping both
modelled as `none`), or any other exception (timeout, connection refused,
undecodable body). -/
inductive AttemptOutcome where
  | success (v : JVal) : AttemptOutcome
  | httpError (code : ℕ) (retryAfter : Option String) : AttemptOutcome
  | otherError : AttemptOutcome

/-- How `_http_get_json` leaves its caller: the decoded body, a re-raised
`HTTPError` with its status code, or a re-raised other exception. -/
inductive HttpResult where
  | ok (v : JVal) : HttpResult
  | raisedHttp (code : ℕ) : HttpResult
  | raisedOther : HttpResult

/-- Backoff delay slept before a retried 429 (lines 80-85): the parsed
`Retry-After` header when the header is truthy and `float()` accepts it,
else `1.5 * (attempt + 1)` (also on a parse failure, via the `except`),
then clamped by `max(0.5, min(10.0, sleep_s))`. -/
def backoffDelay (attempt : ℕ) (retryAfter : Option String) : ℚ :=
  let base : ℚ :=
    match retryAfter with
    | some ra =>
      if ra ≠ "" then (parsePyFloat ra).getD ((3 / 2) * ((attempt : ℚ) + 1))
      else (3 / 2) * ((attempt : ℚ) + 1)
    | none => (3 / 2) * ((attempt : ℚ) + 1)
  max (1 / 2) (min 10 base)

/-- The retry loop of `_http_get_json` (lines 70-94), with the fixed
`for attempt in range(3)` unrolled; `f i` is the outcome of attempt `i`.
Returns the function's result together with the list of delays slept, in
order.  Each iteration returns, raises, or (only on a 429 with
`attempt < 2`) sleeps and continues, so the loop's trailing re-raise
(lines 92-94) is unreachable and has no case here.  At attempt 2 the
`attempt < 2` guard fails, so even a 429 re-raises. -/
def httpGetJson (f : ℕ → AttemptOutcome) : HttpResult × List ℚ :=
  match f 0 with
  | .success v => (.ok v, [])
  | .otherError => (.raisedOther, [])
  | .httpError c0 ra0 =>
    if c0 = 429 then
      let d0 := backoffDelay 0 ra0
      match f 1 with
      | .success v => (.ok v, [d0])
      | .otherError => (.raisedOther, [d0])
      | .httpError c1 ra1 =>
        if c1 = 429 then
          let d1 := backoffDelay 1 ra1
          match f 2 with
          | .success v => (.ok v, [d0, d1])
          | .otherError => (.raisedOther, [d0, d1])
          | .httpError c2 _ => (.raisedHttp c2, [d0, d1])
        else (.raisedHttp c1, [d0])
    else (.raisedHttp c0, [])

/-- A geocoding candidate (`GeoResult` dataclass, lines 13-19). -/
structure GeoResult where
  name : String
  latitude : ℚ
  longitude : ℚ
  country : Option String
  admin1 : Option String
deriving DecidableEq

/-- Outcome of a provider fetch as seen by a geocoder: the decoded JSON
payload, or any raised exception (transport, HTTP, parse). -/
inductive FetchOutcome where
  | ok (v : JVal) : FetchOutcome
  | exn : FetchOutcome

/-- One entry of the primary provider's `results` array (lines 109-120):
the `try` body builds a `GeoResult`; any raise inside it (`r.get` on a
non-dict, `r["latitude"]`/`r["longitude"]` missing, `float()` failing) is
caught by the `except ... continue`, i.e. yields `none`. -/
def parseOpenMeteoEntry (nm : String) (r : JVal) : Option GeoResult :=
  match r with
  | .obj fs =>
    match jfind fs "latitude", jfind fs "longitude" with
    | some latv, some lonv =>
      match pyFloat latv, pyFloat lonv with
      | some lat, some lon =>
        some {
          name := pyStr (pyOr (jgetD fs "name") (.str nm))
          latitude := lat
          longitude := lon
          country := if pyTruthy (jgetD fs "country") then some (pyStr (jgetD fs "country")) else none
          admin1 := if pyTruthy (jgetD fs "admin1") then some (pyStr (jgetD fs "admin1")) else none }
      | _, _ => none
    | _, _ => none
  | _ => none

/-- Post-fetch body of `_geocode_open_meteo` (lines 104-121) on the decoded
payload.  `.error ()` models the uncaught raises: the explicit provider
error (line 105), `.get` on a non-dict payload, and iterating a
non-iterable truthy `results` (number/bool).  Iterating a truthy string or
dict yields strings, each of which the per-entry `try` drops, hence `[]`. -/
def geoOpenMeteoParse (nm : String) (payload : JVal) : Except Unit (List GeoResult) :=
  match payload with
  | .obj fs =>
    if pyTruthy (jgetD fs "error") then .error () else
    match pyOr (jgetD fs "results") (.arr []) with
    | .arr rs => .ok (rs.filterMap (parseOpenMeteoEntry nm))
    | .str _ => .ok []
    | .obj _ => .ok []
    | _ => .error ()
  | _ => .error ()

/-- One entry of the fallback provider's payload (lines 143-154), with the
same per-entry catch-and-drop policy as the primary. -/
def parseNominatimEntry (nm : String) (r : JVal) : Option GeoResult :=
  match r with
  | .obj fs =>
    match jfind fs "lat", jfind fs "lon" with
    | some latv, some lonv =>
      match pyFloat latv, pyFloat lonv with
      | some lat, some lon =>
        some {
          name := pyStr (pyOr (jgetD fs "display_name") (pyOr (jgetD fs "name") (.str nm)))
          latitude := lat
          longitude := lon
          country := none
          admin1 := none }
      | _, _ => none
    | _, _ => none
  | _ => none

/-- Post-fetch body of `_geocode_nominatim` (lines 139-155): a non-list
payload returns `[]` (line 140), a list is mapped entrywise with malformed
entries dropped. -/
def geoNominatimParse (nm : String) (payload : JVal) : List GeoResult :=
  match payload with
  | .arr rs => rs.filterMap (parseNominatimEntry nm)
  | _ => []

/-- `_geocode_open_meteo` as seen by `geocode`: a raised fetch exception
propagates, otherwise the payload is parsed. -/
def geoOpenMeteo (nm : String) (out : FetchOutcome) : Except Unit (List GeoResult) :=
  match out with
  | .exn => .error ()
  | .ok payload => geoOpenMeteoParse nm payload

/-- `_geocode_nominatim` as seen by `geocode`: a raised fetch exception
propagates, otherwise the payload parse never raises. -/
def geoNominatim (nm : String) (out : FetchOutcome) : Except Unit (List GeoResult) :=
  match out with
  | .exn => .error ()
  | .ok payload => .ok (geoNominatimParse nm payload)

/-- Second half of `geocode` (lines 172-175): try the fallback provider,
and swallow any raise into `[]`. -/
def geocodeFallback (nm : String) (secondary : FetchOutcome) : List GeoResult :=
  match geoNominatim nm secondary with
  | .ok l => l
  | .error _ => []

/-- `geocode` (lines 158-175), parameterised by the two providers'
outcomes.  `count` is only interpolated into the provider request URLs
(lines 100 and 126) and does not affect client-side processing, so it is an
unused parameter of the pure model.  A primary raise or empty primary
result falls through to the fallback; the function itself never raises
(it returns a plain list for every outcome pair). -/
def geocode (nm : String) (count : ℕ) (primary secondary : FetchOutcome) : List GeoResult :=
  match geoOpenMeteo nm primary with
  | .ok l => if l.isEmpty then geocodeFallback nm secondary else l
  | .error _ => geocodeFallback nm secondary

/-- Key selection of `fetch_sensor_moisture` (lines 241-246): the value of
the first present key among `moisture`, `soil_moisture`, `value` — presence
only, the value itself is not inspected; `none` models the for-else
`ValueError` when no key is present. -/
def selectMoistureKey (p : List (String × JVal)) : Option JVal :=
  if (jfind p "moisture").isSome then jfind p "moisture"
  else if (jfind p "soil_moisture").isSome then jfind p "soil_moisture"
  else jfind p "value"

/-- Pure core of `fetch_sensor_moisture` (lines 241-251) on the decoded
payload (a JSON object; the source's `key in payload` / `payload[key]` on
non-dict payloads is outside the claims).  `.error ()` models the two
uncaught raises: no key present, and `float(val)` failing.  A raw value in
`[0, 1]` is scaled by 100, and the result is clamped to `[0, 100]`. -/
def fetchSensorMoisture (p : List (String × JVal)) : Except Unit ℚ :=
  match selectMoistureKey p with
  | none => .error ()
  | some v =>
    match pyFloat v with
    | none => .error ()
    | some m0 =>
      .ok (max 0 (min 100 (if 0 ≤ m0 ∧ m0 ≤ 1 then m0 * 100 else m0)))

/-- The reading's rain-probability field, through the fetch result. -/
def readingRain (e : Except Unit WeatherOut) : Except Unit (Option ℤ) :=
  e.map fun o => o.rain_probability_pct

/-- The reading's condition field, through the fetch result. -/
def readingCondition (e : Except Unit WeatherOut) : Except Unit String :=
  e.map fun o => o.condition

/-- A provider that answers HTTP 429 with no Retry-After header on every
attempt. -/
def allRateLimited : ℕ → AttemptOutcome := fun _ => .httpError 429 none

/-- A provider that answers a first 429 carrying `Retry-After: 2` and then
succeeds with an empty JSON object. -/
def rateLimitedOnce : ℕ → AttemptOutcome := fun i =>
  if i = 0 then .httpError 429 (some "2") else .success (.obj [])

/-- A forecast payload whose current weather code is the non-integer
numeric value 45.5: not a key of the table, yet not mapped to "Unknown". -/
def nonIntegerCodePayload : List (String × JVal) :=
  [("current", JVal.obj [("weather_code", JVal.num (91 / 2))])]

/-- A forecast payload reporting thunderstorm (code 95). -/
def thunderstormPayload : List (String × JVal) :=
  [("current", JVal.obj [("weather_code", JVal.num 95)])]

/-- The spec's worked alignment example: hourly times 10:00/11:00 with
probabilities 20/55 and current time 11:00. -/
def alignedForecastPayload : List (String × JVal) :=
  [("current", JVal.obj [("time", JVal.str "2024-01-01T11:00")]),
   ("hourly", JVal.obj [
     ("time", JVal.arr [JVal.str "2024-01-01T10:00", JVal.str "2024-01-01T11:00"]),
     ("precipitation_probability", JVal.arr [JVal.num 20, JVal.num 55])])]

/-- A forecast payload with a complete hourly block but no current time. -/
def noCurrentTimePayload : List (String × JVal) :=
  [("current", JVal.obj [("temperature_2m", JVal.num 20)]),
   ("hourly", JVal.obj [("time", JVal.arr [JVal.str "2024-01-01T10:00"]),
     ("precipitation_probability", JVal.arr [JVal.num 20])])]

/-- A forecast payload whose provider reports a 150% rain probability. -/
def overRangeRainPayload : List (String × JVal) :=
  [("current", JVal.obj [("time", JVal.str "2024-01-01T10:00")]),
   ("hourly", JVal.obj [("time", JVal.arr [JVal.str "2024-01-01T10:00"]),
     ("precipitation_probability", JVal.arr [JVal.num 150])])]

/-- A primary-provider payload carrying two well-formed results. -/
def twoResultsPayload : JVal :=
  JVal.obj [("results", JVal.arr [
    JVal.obj [("name", JVal.str "Springfield"), ("latitude", JVal.num 1),
      ("longitude", JVal.num 2)],
    JVal.obj [("name", JVal.str "Springfield"), ("latitude", JVal.num 3),
      ("longitude", JVal.num 4)]])]

/-- A primary-provider payload with one well-formed and one malformed
result (null latitude). -/
def mixedResultsPayloadFields : List (String × JVal) :=
  [("results", JVal.arr [
    JVal.obj [("name", JVal.str "Springfield"), ("latitude", JVal.num 1),
      ("longitude", JVal.num 2)],
    JVal.obj [("name", JVal.str "Bad"), ("latitude", JVal.null),
      ("longitude", JVal.num 4)]])]

/-! Helper lemmas shared by the claim proofs. -/

lemma pyOr_obj (cf : List (String × JVal)) : pyOr (.obj cf) (.obj []) = .obj cf := by
  cases cf <;> simp [pyOr, pyTruthy]

lemma pyOr_arr (rs : List JVal) : pyOr (.arr rs) (.arr []) = .arr rs := by
  cases rs <;> simp [pyOr, pyTruthy]

lemma seqAfterOr_arr (ts : List JVal) : seqAfterOr (.arr ts) = some ts := by
  cases ts <;> simp [seqAfterOr, pyTruthy]

lemma seqAfterOr_null : seqAfterOr .null = some [] := rfl

lemma jgetD_nil (key : String) : jgetD [] key = .null := rfl

lemma getCurrentWeatherCore_ok (now : String) (p : List (String × JVal))
    (cf : List (String × JVal)) (dsc : String)
    (herr : pyTruthy (jgetD p "error") = false)
    (hcur : jgetD p "current" = .obj cf)
    (hdesc : describeCode (jgetD cf "weather_code") = some dsc) :
    getCurrentWeatherCore now p = .ok {
      temperature_c := jgetD cf "temperature_2m"
      humidity_pct := jgetD cf "relative_humidity_2m"
      wind_kph := jgetD cf "wind_speed_10m"
      precip_mm := jgetD cf "precipitation"
      weather_code := jgetD cf "weather_code"
      condition := dsc
      rain_probability_pct := rainProbOf cf (jgetD p "hourly")
      asof := pyOr (jgetD cf "time") (.str now) } := by
  unfold getCurrentWeatherCore
  rw [herr, hcur, pyOr_obj]
  simp [hdesc]

lemma rainProbOf_eq (cf hf : List (String × JVal)) (times probs : List JVal)
    (htime : jgetD hf "time" = .arr times)
    (hprobs : jgetD hf "precipitation_probability" = .arr probs) :
    rainProbOf cf (.obj hf) =
      if pyTruthy (jgetD cf "time") && !times.isEmpty && !probs.isEmpty
          && times.length == probs.length then
        match pyIndex (jgetD cf "time") times with
        | some idx => pyIntOfEntry (probs.getD idx .null)
        | none => pyIntOfEntry (probs.getD 0 .null)
      else none := by
  have hfne : hf ≠ [] := by
    intro h
    rw [h, jgetD_nil] at htime
    exact JVal.noConfusion htime
  have htr : pyTruthy (.obj hf) = true := by
    cases hf with
    | nil => exact absurd rfl hfne
    | cons a l => simp [pyTruthy]
  unfold rainProbOf
  rw [htr]
  simp [htime, hprobs, seqAfterOr_arr]

lemma pyIndex_eq_some_of_first (ct : JVal) (times : List JVal) (i : ℕ) (hi : i < times.length)
    (hmatch : pyEq (times.get ⟨i, hi⟩) ct = true)
    (hbefore : ∀ j (hj : j < times.length), j < i → pyEq (times.get ⟨j, hj⟩) ct = false) :
    pyIndex ct times = some i := by
  induction times generalizing i with
  | nil => exact absurd hi (by simp)
  | cons t ts ih =>
    cases i with
    | zero =>
      have : pyEq t ct = true := hmatch
      simp [pyIndex, this]
    | succ i' =>
      have h0 : pyEq t ct = false := hbefore 0 (by simp) (Nat.succ_pos i')
      have hi' : i' < ts.length := Nat.lt_of_succ_lt_succ hi
      have hm' : pyEq (ts.get ⟨i', hi'⟩) ct = true := hmatch
      have hb' : ∀ j (hj : j < ts.length), j < i' → pyEq (ts.get ⟨j, hj⟩) ct = false := by
        intro j hj hji
        exact hbefore (j + 1) (Nat.succ_lt_succ hj) (Nat.succ_lt_succ hji)
      simp [pyIndex, h0, ih i' hi' hm' hb']

lemma pyIndex_eq_none (ct : JVal) (times : List JVal)
    (h : ∀ t ∈ times, pyEq t ct = false) : pyIndex ct times = none := by
  induction times with
  | nil => rfl
  | cons t ts ih =>
    have h0 : pyEq t ct = false := h t (by simp)
    simp [pyIndex, h0, ih (fun t ht => h t (by simp [ht]))]

lemma ratTrunc_intCast (k : ℤ) : ratTrunc (k : ℚ) = k := by
  unfold ratTrunc
  by_cases h : (k : ℚ) < 0
  · rw [if_pos h]
    rw [show (-(k : ℚ)) = ((-k : ℤ) : ℚ) by push_cast; ring, Int.floor_intCast]
    ring
  · rw [if_neg h, Int.floor_intCast]

lemma pyIntOfEntry_intCast (k : ℤ) : pyIntOfEntry (.num (k : ℚ)) = some k := by
  simp [pyIntOfEntry, pyInt, ratTrunc_intCast]

lemma getD_null_mem (l : List JVal) (i : ℕ) :
    l.getD i .null = .null ∨ l.getD i .null ∈ l := by
  by_cases h : i < l.length
  · right
    rw [List.getD_eq_getElem l .null h]
    exact List.getElem_mem h
  · left
    rw [List.getD_eq_default l .null (Nat.le_of_not_lt h)]

lemma lookup_mem_int {k : ℤ} {s : String} :
    ∀ {l : List (ℤ × String)}, l.lookup k = some s → (k, s) ∈ l := by
  intro l
  induction l with
  | nil => intro h; exact Option.noConfusion h
  | cons a l ih =>
    intro h
    by_cases hk : (k == a.1) = true
    · have hv : a.2 = s := by simpa [List.lookup, hk] using h
      have hk' : k = a.1 := eq_of_beq hk
      have hpair : (k, s) = a := by rw [hk', ← hv]
      rw [hpair]
      exact List.mem_cons_self a l
    · have hk2 : (k == a.1) = false := by simpa using hk
      have h' : List.lookup k l = some s := by simpa [List.lookup, hk2] using h
      exact List.mem_cons_of_mem a (ih h')

lemma weather_value_ne_unknown {k : ℤ} {s : String}
    (h : WEATHER_CODE.lookup k = some s) : s ≠ "Unknown" := by
  intro hs
  have hmem : (k, s) ∈ WEATHER_CODE := lookup_mem_int h
  have : s ∈ WEATHER_CODE.map Prod.snd := List.mem_map_of_mem Prod.snd hmem
  rw [hs] at this
  revert this
  decide

lemma isEmpty_false_of_ne_nil {α : Type} {l : List α} (h : l ≠ []) : l.isEmpty = false := by
  cases l with
  | nil => exact absurd rfl h
  | cons a t => rfl

lemma moisture_ok_range (p : List (String × JVal)) (r : ℚ)
    (h : fetchSensorMoisture p = .ok r) : 0 ≤ r ∧ r ≤ 100 := by
  unfold fetchSensorMoisture at h
  cases hsel : selectMoistureKey p with
  | none => simp [hsel] at h
  | some v =>
    simp only [hsel] at h
    cases hf : pyFloat v with
    | none => simp [hf] at h
    | some m0 =>
      simp only [hf] at h
      have hr : r = max 0 (min 100 (if 0 ≤ m0 ∧ m0 ≤ 1 then m0 * 100 else m0)) :=
        (Except.ok.inj h).symm
      constructor
      · rw [hr]; exact le_max_left 0 _
      · rw [hr]
        exact max_le (by norm_num) (min_le_left 100 _)

lemma pyIntOfEntry_getD_bounded (probs : List JVal) (i : ℕ) (n : ℤ)
    (hrange : ∀ v ∈ probs, v = .null ∨ ∃ k : ℤ, v = .num (k : ℚ) ∧ 0 ≤ k ∧ k ≤ 100)
    (h : pyIntOfEntry (probs.getD i .null) = some n) : 0 ≤ n ∧ n ≤ 100 := by
  rcases getD_null_mem probs i with hnull | hmem
  · rw [hnull] at h
    simp [pyIntOfEntry] at h
  · rcases hrange _ hmem with hv | ⟨k, hv, hk0, hk1⟩
    · rw [hv] at h
      simp [pyIntOfEntry] at h
    · rw [hv, pyIntOfEntry_intCast] at h
      have hkn : k = n := Option.some.inj h
      subst hkn
      exact ⟨hk0, hk1⟩

lemma readingRain_ok (now : String) (p cf : List (String × JVal)) (dsc : String)
    (herr : pyTruthy (jgetD p "error") = false)
    (hcur : jgetD p "current" = .obj cf)
    (hdesc : describeCode (jgetD cf "weather_code") = some dsc) :
    readingRain (getCurrentWeatherCore now p) = .ok (rainProbOf cf (jgetD p "hourly")) := by
  rw [readingRain, getCurrentWeatherCore_ok now p cf dsc herr hcur hdesc]
  rfl

lemma readingCondition_ok (now : String) (p cf : List (String × JVal)) (dsc : String)
    (herr : pyTruthy (jgetD p "error") = false)
    (hcur : jgetD p "current" = .obj cf)
    (hdesc : describeCode (jgetD cf "weather_code") = some dsc) :
    readingCondition (getCurrentWeatherCore now p) = .ok dsc := by
  rw [readingCondition, getCurrentWeatherCore_ok now p cf dsc herr hcur hdesc]
  rfl

/-! The claim theorems. -/

/-- C4: the fetcher retries only on an HTTP 429 while attempts remain and
makes at most 3 total attempts (only the outcomes of attempts 0, 1, 2 are
ever consulted); any other-exception failure and any non-429 HTTP error is
re-raised on first occurrence with no sleep for it and no further attempt,
whether it happens on the first attempt or after earlier 429 retries; and a
429 on the third attempt is re-raised to the caller, after exactly the two
earlier backoff sleeps. -/
theorem http_retry_policy :
    (∀ f : ℕ → AttemptOutcome, f 0 = .otherError → httpGetJson f = (.raisedOther, []))
    ∧ (∀ (f : ℕ → AttemptOutcome) (c : ℕ) (ra : Option String),
        f 0 = .httpError c ra → c ≠ 429 → httpGetJson f = (.raisedHttp c, []))
    ∧ (∀ (f : ℕ → AttemptOutcome) (ra0 : Option String),
        f 0 = .httpError 429 ra0 → f 1 = .otherError →
        httpGetJson f = (.raisedOther, [backoffDelay 0 ra0]))
    ∧ (∀ (f : ℕ → AttemptOutcome) (c : ℕ) (ra0 ra1 : Option String),
        f 0 = .httpError 429 ra0 → f 1 = .httpError c ra1 → c ≠ 429 →
        httpGetJson f = (.raisedHttp c, [backoffDelay 0 ra0]))
    ∧ (∀ (f : ℕ → AttemptOutcome) (ra0 ra1 ra2 : Option String),
        f 0 = .httpError 429 ra0 → f 1 = .httpError 429 ra1 → f 2 = .httpError 429 ra2 →
        httpGetJson f = (.raisedHttp 429, [backoffDelay 0 ra0, backoffDelay 1 ra1]))
    ∧ (∀ f g : ℕ → AttemptOutcome, f 0 = g 0 → f 1 = g 1 → f 2 = g 2 →
        httpGetJson f = httpGetJson g) := by
  refine ⟨?_, ?_, ?_, ?_, ?_, ?_⟩
  · intro f h0
    simp [httpGetJson, h0]
  · intro f c ra h0 hc
    simp [httpGetJson, h0, hc]
  · intro f ra0 h0 h1
    simp [httpGetJson, h0, h1]
  · intro f c ra0 ra1 h0 h1 hc
    simp [httpGetJson, h0, h1, hc]
  · intro f ra0 ra1 ra2 h0 h1 h2
    simp [httpGetJson, h0, h1, h2]
  · intro f g h0 h1 h2
    unfold httpGetJson
    rw [h0, h1, h2]

/-- Witness for C4: three straight 429s make exactly three attempts, sleep
twice, and re-raise the 429. -/
theorem http_retry_policy_witness :
    httpGetJson allRateLimited = (.raisedHttp 429, [backoffDelay 0 none, backoffDelay 1 none]) :=
  http_retry_policy.2.2.2.2.1 allRateLimited none none none rfl rfl rfl

/-- C5: the backoff delay for a retried 429 is the `Retry-After` header
value when the header is present, non-empty and parseable as a float,
and `1.5 * (attempt + 1)` otherwise (header absent or unparseable) — in
particular attempt index 1 with no header yields 3.0 s; and in every case
the slept delay lies in `[0.5, 10.0]` by the clamp.  The last conjunct ties
the delay to the fetch loop: the sleep recorded for a retried first-attempt
429 is exactly `backoffDelay 0` of its header. -/
theorem http_backoff_delay :
    (∀ (a : ℕ) (s : String) (q : ℚ), s ≠ "" → parsePyFloat s = some q →
        backoffDelay a (some s) = max (1 / 2) (min 10 q))
    ∧ (∀ a : ℕ, backoffDelay a none = max (1 / 2) (min 10 ((3 / 2) * ((a : ℚ) + 1))))
    ∧ (∀ (a : ℕ) (s : String), parsePyFloat s = none →
        backoffDelay a (some s) = max (1 / 2) (min 10 ((3 / 2) * ((a : ℚ) + 1))))
    ∧ (∀ (a : ℕ) (ra : Option String),
        1 / 2 ≤ backoffDelay a ra ∧ backoffDelay a ra ≤ 10)
    ∧ backoffDelay 1 none = 3
    ∧ (∀ (f : ℕ → AttemptOutcome) (ra0 : Option String) (v : JVal),
        f 0 = .httpError 429 ra0 → f 1 = .success v →
        httpGetJson f = (.ok v, [backoffDelay 0 ra0])) := by
  refine ⟨?_, ?_, ?_, ?_, ?_, ?_⟩
  · intro a s q hs hq
    simp [backoffDelay, hs, hq]
  · intro a
    simp [backoffDelay]
  · intro a s hparse
    by_cases hs : s = "" <;> simp [backoffDelay, hparse, hs]
  · intro a ra
    unfold backoffDelay
    constructor
    · exact le_max_left _ _
    · exact max_le (by norm_num) (min_le_left 10 _)
  · norm_num [backoffDelay]
  · intro f ra0 v h0 h1
    simp [httpGetJson, h0, h1]

/-- Witness for C5: the 429 with `Retry-After: 2` sleeps exactly 2 seconds
(the clamp leaves 2 unchanged) before the successful retry. -/
theorem http_backoff_delay_witness :
    httpGetJson rateLimitedOnce = (.ok (.obj []), [2]) := by
  have hd : backoffDelay 0 (some "2") = max (1 / 2) (min 10 2) :=
    http_backoff_delay.1 0 "2" 2 (by decide) (by decide)
  have hrun : httpGetJson rateLimitedOnce = (.ok (.obj []), [backoffDelay 0 (some "2")]) :=
    http_backoff_delay.2.2.2.2.2 rateLimitedOnce (some "2") (.obj []) rfl rfl
  rw [hrun, hd]
  norm_num

/-- C8: `fetch_sensor_moisture` selects the value of the first present key
among `moisture`, `soil_moisture`, `value` in that priority order; fails
when none of the three keys is present; multiplies the selected value by
100 exactly when it lies within `[0, 1]`; and clamps the final result to
`[0, 100]` for every input, so every returned value lies in that range. -/
theorem sensor_moisture_contract :
    (∀ (p : List (String × JVal)) (v : JVal), jfind p "moisture" = some v →
        selectMoistureKey p = some v)
    ∧ (∀ (p : List (String × JVal)) (v : JVal), jfind p "moisture" = none →
        jfind p "soil_moisture" = some v → selectMoistureKey p = some v)
    ∧ (∀ p : List (String × JVal), jfind p "moisture" = none →
        jfind p "soil_moisture" = none → selectMoistureKey p = jfind p "value")
    ∧ (∀ p : List (String × JVal), jfind p "moisture" = none →
        jfind p "soil_moisture" = none → jfind p "value" = none →
        fetchSensorMoisture p = .error ())
    ∧ (∀ (p : List (String × JVal)) (q : ℚ), selectMoistureKey p = some (.num q) →
        (0 ≤ q ∧ q ≤ 1 → fetchSensorMoisture p = .ok (max 0 (min 100 (q * 100))))
        ∧ (¬(0 ≤ q ∧ q ≤ 1) → fetchSensorMoisture p = .ok (max 0 (min 100 q))))
    ∧ (∀ (p : List (String × JVal)) (r : ℚ),
        fetchSensorMoisture p = .ok r → 0 ≤ r ∧ r ≤ 100) := by
  refine ⟨?_, ?_, ?_, ?_, ?_, moisture_ok_range⟩
  · intro p v h
    simp [selectMoistureKey, h]
  · intro p v h1 h2
    simp [selectMoistureKey, h1, h2]
  · intro p h1 h2
    simp [selectMoistureKey, h1, h2]
  · intro p h1 h2 h3
    have hsel : selectMoistureKey p = none := by simp [selectMoistureKey, h1, h2, h3]
    simp [fetchSensorMoisture, hsel]
  · intro p q hsel
    constructor
    · intro h01
      simp [fetchSensorMoisture, hsel, pyFloat, h01]
    · intro h01
      simp [fetchSensorMoisture, hsel, pyFloat, h01]

/-- Witness for C8: the spec's example `{"moisture": 0.42}` yields 42.0. -/
theorem sensor_moisture_contract_witness :
    fetchSensorMoisture [("moisture", JVal.num (21 / 50))] = .ok 42 := by
  have h := (sensor_moisture_contract.2.2.2.2.1 [("moisture", JVal.num (21 / 50))]
    (21 / 50) rfl).1 (by norm_num)
  rw [h]
  norm_num [max_def, min_def]

/-- C9: key selection in `fetch_sensor_moisture` tests presence only, never
value validity: when `moisture` is present but holds a null or otherwise
non-convertible value, the call fails even if a lower-priority key holds a
valid number — the remaining keys are never consulted. -/
theorem sensor_moisture_key_presence_only (p : List (String × JVal)) (v : JVal)
    (hpres : jfind p "moisture" = some v) (hbad : pyFloat v = none) :
    fetchSensorMoisture p = .error () := by
  have hsel : selectMoistureKey p = some v := by simp [selectMoistureKey, hpres]
  simp [fetchSensorMoisture, hsel, hbad]

/-- Witness for C9: `{"moisture": null, "value": 42}` fails even though
`value` holds a valid number. -/
theorem sensor_moisture_key_presence_only_witness :
    fetchSensorMoisture [("moisture", JVal.null), ("value", JVal.num 42)] = .error () :=
  sensor_moisture_key_presence_only _ JVal.null rfl rfl

/-- C6: `geocode` never surfaces a provider failure: a successful non-empty
primary parse is returned as is; a primary raise or an empty primary result
falls through to the fallback provider; a successful fallback parse is
returned; and a raising fallback yields `[]` — for every outcome pair the
function returns a plain list (its type has no error case, mirroring the
two catch-alls of lines 164-175). -/
theorem geocode_never_raises :
    (∀ (nm : String) (cnt : ℕ) (p s : FetchOutcome) (l : List GeoResult),
        geoOpenMeteo nm p = .ok l → l ≠ [] → geocode nm cnt p s = l)
    ∧ (∀ (nm : String) (cnt : ℕ) (p s : FetchOutcome),
        geoOpenMeteo nm p = .error () ∨ geoOpenMeteo nm p = .ok [] →
        geocode nm cnt p s = geocodeFallback nm s)
    ∧ (∀ (nm : String) (s : FetchOutcome) (l : List GeoResult),
        geoNominatim nm s = .ok l → geocodeFallback nm s = l)
    ∧ (∀ nm : String, geocodeFallback nm .exn = [])
    ∧ (∀ (nm : String) (cnt : ℕ) (p : FetchOutcome),
        geoOpenMeteo nm p = .error () ∨ geoOpenMeteo nm p = .ok [] →
        geocode nm cnt p .exn = []) := by
  have hfb : ∀ (nm : String) (s : FetchOutcome) (l : List GeoResult),
      geoNominatim nm s = .ok l → geocodeFallback nm s = l := by
    intro nm s l h
    simp [geocodeFallback, h]
  have hexn : ∀ nm : String, geocodeFallback nm .exn = [] := by
    intro nm
    simp [geocodeFallback, geoNominatim]
  have hmain : ∀ (nm : String) (cnt : ℕ) (p s : FetchOutcome),
      geoOpenMeteo nm p = .error () ∨ geoOpenMeteo nm p = .ok [] →
      geocode nm cnt p s = geocodeFallback nm s := by
    intro nm cnt p s h
    rcases h with h | h <;> simp [geocode, h]
  refine ⟨?_, hmain, hfb, hexn, ?_⟩
  · intro nm cnt p s l h hne
    simp [geocode, h, isEmpty_false_of_ne_nil hne]
  · intro nm cnt p h
    rw [hmain nm cnt p .exn h, hexn nm]

/-- Witness for C6: a primary provider answering `{"results": []}` plus a
raising fallback yields `[]`, not an exception. -/
theorem geocode_never_raises_witness :
    geocode "Paris" 5 (.ok (JVal.obj [("results", JVal.arr [])])) .exn = [] :=
  geocode_never_raises.2.2.2.2 "Paris" 5 _ (Or.inr rfl)

/-- C7 counterexample: the numeric weather code 45.5 is not a key of the
lookup table (no integer key equals it), yet the reading's condition is
"Fog", not "Unknown" — line 205 truncates with `int()` before the lookup,
so a non-integer code can land on a table entry. -/
theorem weather_code_outside_table_cex :
    readingCondition (getCurrentWeatherCore "2024-01-01T00:00" nonIntegerCodePayload)
      = .ok "Fog"
    ∧ (∀ k : ℤ, ¬((k : ℚ) = 91 / 2))
    ∧ "Fog" ≠ "Unknown" := by
  refine ⟨?_, ?_, by decide⟩
  · have hdesc : describeCode (jgetD [("weather_code", JVal.num (91 / 2))] "weather_code")
        = some "Fog" := by
      show describeCode (JVal.num (91 / 2)) = some "Fog"
      simp only [describeCode, pyInt]
      have ht : ratTrunc (91 / 2) = 45 := by norm_num [ratTrunc]
      rw [ht]
      rfl
    exact readingCondition_ok "2024-01-01T00:00" nonIntegerCodePayload
      [("weather_code", JVal.num (91 / 2))] "Fog" rfl rfl hdesc
  · intro k hk
    have h2 : ((2 * k : ℤ) : ℚ) = 91 := by push_cast [hk]; ring
    have h3 : (2 * k : ℤ) = 91 := by exact_mod_cast h2
    omega

/-- C7 (amended): for every weather code that is a key of the lookup table
the condition is that table's description and never "Unknown"; a numeric
code is truncated toward zero by `int()` before the lookup, so every
integer code outside the table, and a missing code field, map to exactly
"Unknown", while a non-integer numeric code maps to the entry of its
truncation (hence not to "Unknown" when the truncation is a key). -/
theorem weather_code_mapping :
    (∀ (now : String) (p cf : List (String × JVal)) (c : ℤ) (s : String),
        pyTruthy (jgetD p "error") = false → jgetD p "current" = .obj cf →
        jgetD cf "weather_code" = .num (c : ℚ) → WEATHER_CODE.lookup c = some s →
        readingCondition (getCurrentWeatherCore now p) = .ok s ∧ s ≠ "Unknown")
    ∧ (∀ (now : String) (p cf : List (String × JVal)) (c : ℤ),
        pyTruthy (jgetD p "error") = false → jgetD p "current" = .obj cf →
        jgetD cf "weather_code" = .num (c : ℚ) → WEATHER_CODE.lookup c = none →
        readingCondition (getCurrentWeatherCore now p) = .ok "Unknown")
    ∧ (∀ (now : String) (p cf : List (String × JVal)),
        pyTruthy (jgetD p "error") = false → jgetD p "current" = .obj cf →
        jgetD cf "weather_code" = .null →
        readingCondition (getCurrentWeatherCore now p) = .ok "Unknown")
    ∧ (∀ (now : String) (p cf : List (String × JVal)) (q : ℚ),
        pyTruthy (jgetD p "error") = false → jgetD p "current" = .obj cf →
        jgetD cf "weather_code" = .num q →
        readingCondition (getCurrentWeatherCore now p)
          = .ok ((WEATHER_CODE.lookup (ratTrunc q)).getD "Unknown")) := by
  have hnum : ∀ (now : String) (p cf : List (String × JVal)) (q : ℚ),
      pyTruthy (jgetD p "error") = false → jgetD p "current" = .obj cf →
      jgetD cf "weather_code" = .num q →
      readingCondition (getCurrentWeatherCore now p)
        = .ok ((WEATHER_CODE.lookup (ratTrunc q)).getD "Unknown") := by
    intro now p cf q herr hcur hcode
    have hdesc : describeCode (jgetD cf "weather_code")
        = some ((WEATHER_CODE.lookup (ratTrunc q)).getD "Unknown") := by
      rw [hcode]
      simp [describeCode, pyInt]
    exact readingCondition_ok now p cf _ herr hcur hdesc
  refine ⟨?_, ?_, ?_, hnum⟩
  · intro now p cf c s herr hcur hcode hs
    have h := hnum now p cf (c : ℚ) herr hcur hcode
    rw [ratTrunc_intCast, hs] at h
    exact ⟨h, weather_value_ne_unknown hs⟩
  · intro now p cf c herr hcur hcode hs
    have h := hnum now p cf (c : ℚ) herr hcur hcode
    rw [ratTrunc_intCast, hs] at h
    exact h
  · intro now p cf herr hcur hcode
    have hdesc : describeCode (jgetD cf "weather_code") = some "Unknown" := by
      rw [hcode]
      rfl
    exact readingCondition_ok now p cf _ herr hcur hdesc

/-- Witness for C7 (amended): code 95, a table key, maps to "Thunderstorm". -/
theorem weather_code_mapping_witness :
    readingCondition (getCurrentWeatherCore "2024-01-01T00:00" thunderstormPayload)
      = .ok "Thunderstorm" ∧ "Thunderstorm" ≠ "Unknown" :=
  weather_code_mapping.1 "2024-01-01T00:00" thunderstormPayload
    [("weather_code", JVal.num 95)] 95 "Thunderstorm" rfl rfl rfl rfl

/-- C3: rain-probability alignment.  For a forecast response with hourly
time and probability series of equal length and a truthy current
timestamp: when the current timestamp first occurs at index `i` of the time
series, the reading's rain probability is the (integer) probability at
index `i`; when it occurs nowhere but the series is non-empty, it is the
first entry; when the two series differ in length, or the hourly block or
its time series is missing, the rain probability is absent — and in every
one of these cases the fetch still returns a reading (`.ok`), no error. -/
theorem rain_probability_alignment :
    (∀ (now : String) (p cf hf : List (String × JVal)) (dsc : String)
        (times probs : List JVal) (i : ℕ) (k : ℤ),
        pyTruthy (jgetD p "error") = false → jgetD p "current" = .obj cf →
        describeCode (jgetD cf "weather_code") = some dsc →
        jgetD p "hourly" = .obj hf →
        jgetD hf "time" = .arr times →
        jgetD hf "precipitation_probability" = .arr probs →
        pyTruthy (jgetD cf "time") = true →
        times.length = probs.length →
        ∀ (hi : i < times.length) (hi2 : i < probs.length),
        pyEq (times.get ⟨i, hi⟩) (jgetD cf "time") = true →
        (∀ j (hj : j < times.length), j < i → pyEq (times.get ⟨j, hj⟩) (jgetD cf "time") = false) →
        probs.get ⟨i, hi2⟩ = .num (k : ℚ) →
        readingRain (getCurrentWeatherCore now p) = .ok (some k))
    ∧ (∀ (now : String) (p cf hf : List (String × JVal)) (dsc : String)
        (times probs : List JVal) (k : ℤ),
        pyTruthy (jgetD p "error") = false → jgetD p "current" = .obj cf →
        describeCode (jgetD cf "weather_code") = some dsc →
        jgetD p "hourly" = .obj hf →
        jgetD hf "time" = .arr times →
        jgetD hf "precipitation_probability" = .arr probs →
        pyTruthy (jgetD cf "time") = true →
        times.length = probs.length → times ≠ [] →
        (∀ t ∈ times, pyEq t (jgetD cf "time") = false) →
        probs.head? = some (.num (k : ℚ)) →
        readingRain (getCurrentWeatherCore now p) = .ok (some k))
    ∧ (∀ (now : String) (p cf hf : List (String × JVal)) (dsc : String)
        (times probs : List JVal),
        pyTruthy (jgetD p "error") = false → jgetD p "current" = .obj cf →
        describeCode (jgetD cf "weather_code") = some dsc →
        jgetD p "hourly" = .obj hf →
        jgetD hf "time" = .arr times →
        jgetD hf "precipitation_probability" = .arr probs →
        times.length ≠ probs.length →
        readingRain (getCurrentWeatherCore now p) = .ok none)
    ∧ (∀ (now : String) (p cf : List (String × JVal)) (dsc : String),
        pyTruthy (jgetD p "error") = false → jgetD p "current" = .obj cf →
        describeCode (jgetD cf "weather_code") = some dsc →
        jgetD p "hourly" = .null →
        readingRain (getCurrentWeatherCore now p) = .ok none)
    ∧ (∀ (now : String) (p cf hf : List (String × JVal)) (dsc : String),
        pyTruthy (jgetD p "error") = false → jgetD p "current" = .obj cf →
        describeCode (jgetD cf "weather_code") = some dsc →
        jgetD p "hourly" = .obj hf →
        jgetD hf "time" = .null →
        readingRain (getCurrentWeatherCore now p) = .ok none) := by
  refine ⟨?_, ?_, ?_, ?_, ?_⟩
  · intro now p cf hf dsc times probs i k herr hcur hdesc hh htime hprobs hct hlen hi hi2
      hmatch hbefore hk
    rw [readingRain_ok now p cf dsc herr hcur hdesc, hh,
      rainProbOf_eq cf hf times probs htime hprobs]
    have htne : times ≠ [] := by
      intro h
      rw [h] at hi
      simp at hi
    have hpne : probs ≠ [] := by
      intro h
      rw [h] at hi2
      simp at hi2
    have hcond : (pyTruthy (jgetD cf "time") && !times.isEmpty && !probs.isEmpty
        && (times.length == probs.length)) = true := by
      rw [hct, isEmpty_false_of_ne_nil htne, isEmpty_false_of_ne_nil hpne, hlen]
      simp
    have hentry : probs.getD i .null = .num (k : ℚ) := by
      rw [List.getD_eq_getElem probs .null hi2, ← List.get_eq_getElem probs ⟨i, hi2⟩, hk]
    simp only [hcond, if_true,
      pyIndex_eq_some_of_first (jgetD cf "time") times i hi hmatch hbefore,
      hentry, pyIntOfEntry_intCast]
  · intro now p cf hf dsc times probs k herr hcur hdesc hh htime hprobs hct hlen htne
      hnomem hk
    rw [readingRain_ok now p cf dsc herr hcur hdesc, hh,
      rainProbOf_eq cf hf times probs htime hprobs]
    have hpne : probs ≠ [] := by
      intro h
      rw [h] at hlen
      simp at hlen
      exact htne hlen
    have hcond : (pyTruthy (jgetD cf "time") && !times.isEmpty && !probs.isEmpty
        && (times.length == probs.length)) = true := by
      rw [hct, isEmpty_false_of_ne_nil htne, isEmpty_false_of_ne_nil hpne, hlen]
      simp
    cases probs with
    | nil => exact absurd rfl hpne
    | cons a t =>
      have ha : a = .num (k : ℚ) := Option.some.inj hk
      have hzero : (a :: t).getD 0 .null = a := rfl
      simp only [hcond, if_true, pyIndex_eq_none (jgetD cf "time") times hnomem]
      rw [hzero, ha, pyIntOfEntry_intCast]
  · intro now p cf hf dsc times probs herr hcur hdesc hh htime hprobs hlen
    rw [readingRain_ok now p cf dsc herr hcur hdesc, hh,
      rainProbOf_eq cf hf times probs htime hprobs]
    have : (times.length == probs.length) = false := by
      simp [hlen]
    simp [this]
  · intro now p cf dsc herr hcur hdesc hh
    rw [readingRain_ok now p cf dsc herr hcur hdesc, hh]
    simp [rainProbOf, pyTruthy, jgetD, jfind, seqAfterOr]
  · intro now p cf hf dsc herr hcur hdesc hh htime
    rw [readingRain_ok now p cf dsc herr hcur hdesc, hh]
    cases hf with
    | nil =>
      simp [rainProbOf, pyTruthy, jgetD, jfind, seqAfterOr]
    | cons a l =>
      cases hsp : seqAfterOr (jgetD (a :: l) "precipitation_probability") with
      | none => simp [rainProbOf, pyTruthy, htime, seqAfterOr_null, hsp]
      | some probs => simp [rainProbOf, pyTruthy, htime, seqAfterOr_null, hsp]

/-- Witness for C3: on the spec's example the current time matches index 1
and the reading's rain probability is 55. -/
theorem rain_probability_alignment_witness :
    readingRain (getCurrentWeatherCore "2024-01-01T00:00" alignedForecastPayload)
      = .ok (some 55) := by
  have hb : ∀ j (hj : j < ([JVal.str "2024-01-01T10:00",
        JVal.str "2024-01-01T11:00"] : List JVal).length), j < 1 →
      pyEq (([JVal.str "2024-01-01T10:00", JVal.str "2024-01-01T11:00"] : List JVal).get ⟨j, hj⟩)
        (jgetD [("time", JVal.str "2024-01-01T11:00")] "time") = false := by
    intro j hj hj1
    have hj0 : j = 0 := by omega
    subst hj0
    rfl
  exact rain_probability_alignment.1 "2024-01-01T00:00" alignedForecastPayload
    [("time", JVal.str "2024-01-01T11:00")]
    [("time", JVal.arr [JVal.str "2024-01-01T10:00", JVal.str "2024-01-01T11:00"]),
     ("precipitation_probability", JVal.arr [JVal.num 20, JVal.num 55])]
    "Unknown"
    [JVal.str "2024-01-01T10:00", JVal.str "2024-01-01T11:00"]
    [JVal.num 20, JVal.num 55] 1 55
    rfl rfl rfl rfl rfl rfl (by decide) rfl (by decide) (by decide) (by decide) hb (by norm_num)

/-- C10: when the current-observation time field is missing (Python `None`,
also the decoded JSON null) or the empty string, the reading's rain
probability is absent even though the hourly time and probability series
are present, non-empty and of equal length — the guard of line 213 requires
a truthy current time before any alignment or fallback happens. -/
theorem rain_requires_current_time (now : String) (p cf hf : List (String × JVal))
    (dsc : String) (times probs : List JVal)
    (herr : pyTruthy (jgetD p "error") = false)
    (hcur : jgetD p "current" = .obj cf)
    (hdesc : describeCode (jgetD cf "weather_code") = some dsc)
    (hh : jgetD p "hourly" = .obj hf)
    (htime : jgetD hf "time" = .arr times)
    (hprobs : jgetD hf "precipitation_probability" = .arr probs)
    (hct : jgetD cf "time" = .null ∨ jgetD cf "time" = .str "")
    (htne : times ≠ []) (hpne : probs ≠ [])
    (hlen : times.length = probs.length) :
    readingRain (getCurrentWeatherCore now p) = .ok none := by
  rw [readingRain_ok now p cf dsc herr hcur hdesc, hh,
    rainProbOf_eq cf hf times probs htime hprobs]
  have hctf : pyTruthy (jgetD cf "time") = false := by
    rcases hct with h | h <;> rw [h] <;> rfl
  simp [hctf]

/-- Witness for C10: with the current time missing the rain probability is
absent despite a healthy hourly series. -/
theorem rain_requires_current_time_witness :
    readingRain (getCurrentWeatherCore "2024-01-01T00:00" noCurrentTimePayload)
      = .ok none :=
  rain_requires_current_time "2024-01-01T00:00" noCurrentTimePayload
    [("temperature_2m", JVal.num 20)]
    [("time", JVal.arr [JVal.str "2024-01-01T10:00"]),
     ("precipitation_probability", JVal.arr [JVal.num 20])]
    "Unknown"
    [JVal.str "2024-01-01T10:00"] [JVal.num 20]
    rfl rfl rfl rfl rfl rfl (Or.inl rfl) (by simp) (by simp) rfl

/-- C1 counterexample: a provider hourly probability of 150 is returned
as the reading's rain probability unchanged — lines 207-220 never clamp
it, so the returned value lies outside 0-100. -/
theorem rain_probability_not_clamped_cex :
    readingRain (getCurrentWeatherCore "2024-01-01T00:00" overRangeRainPayload)
      = .ok (some 150)
    ∧ ¬((0 : ℤ) ≤ 150 ∧ (150 : ℤ) ≤ 100) := by
  exact ⟨rfl, by decide⟩

/-- C1 (amended): moisture values returned by `fetch_sensor_moisture` are
always clamped into `[0, 100]`; the rain probability is not clamped — when
present it is the `int()` of a provider hourly probability entry, so it
lies in 0-100 whenever every entry of the provider's probability series is
null or an integer in `[0, 100]` (and can leave the range otherwise, per
the counterexample). -/
theorem moisture_clamped_rain_in_provider_range :
    (∀ (p : List (String × JVal)) (r : ℚ),
        fetchSensorMoisture p = .ok r → 0 ≤ r ∧ r ≤ 100)
    ∧ (∀ (now : String) (p cf hf : List (String × JVal)) (dsc : String)
        (times probs : List JVal) (n : ℤ),
        pyTruthy (jgetD p "error") = false → jgetD p "current" = .obj cf →
        describeCode (jgetD cf "weather_code") = some dsc →
        jgetD p "hourly" = .obj hf →
        jgetD hf "time" = .arr times →
        jgetD hf "precipitation_probability" = .arr probs →
        (∀ v ∈ probs, v = .null ∨ ∃ k : ℤ, v = .num (k : ℚ) ∧ 0 ≤ k ∧ k ≤ 100) →
        readingRain (getCurrentWeatherCore now p) = .ok (some n) →
        0 ≤ n ∧ n ≤ 100) := by
  refine ⟨moisture_ok_range, ?_⟩
  intro now p cf hf dsc times probs n herr hcur hdesc hh htime hprobs hrange hres
  rw [readingRain_ok now p cf dsc herr hcur hdesc, hh,
    rainProbOf_eq cf hf times probs htime hprobs] at hres
  have hres2 := Except.ok.inj hres
  by_cases hc : (pyTruthy (jgetD cf "time") && !times.isEmpty && !probs.isEmpty
      && (times.length == probs.length)) = true
  · rw [if_pos hc] at hres2
    cases hidx : pyIndex (jgetD cf "time") times with
    | some idx =>
      simp only [hidx] at hres2
      exact pyIntOfEntry_getD_bounded probs idx n hrange hres2
    | none =>
      simp only [hidx] at hres2
      exact pyIntOfEntry_getD_bounded probs 0 n hrange hres2
  · rw [if_neg hc] at hres2
    exact absurd hres2 (by simp)

/-- Witness for C1 (amended): the aligned example's series holds integers
20 and 55 in range, and the returned probability 55 is in 0-100. -/
theorem moisture_clamped_rain_in_provider_range_witness :
    (0 : ℤ) ≤ 55 ∧ (55 : ℤ) ≤ 100 := by
  refine moisture_clamped_rain_in_provider_range.2 "2024-01-01T00:00"
    alignedForecastPayload [("time", JVal.str "2024-01-01T11:00")]
    [("time", JVal.arr [JVal.str "2024-01-01T10:00", JVal.str "2024-01-01T11:00"]),
     ("precipitation_probability", JVal.arr [JVal.num 20, JVal.num 55])]
    "Unknown"
    [JVal.str "2024-01-01T10:00", JVal.str "2024-01-01T11:00"]
    [JVal.num 20, JVal.num 55] 55
    rfl rfl rfl rfl rfl rfl ?_ rfl
  intro v hv
  rcases List.mem_cons.1 hv with rfl | hv2
  · exact Or.inr ⟨20, by norm_num, by norm_num, by norm_num⟩
  · rcases List.mem_cons.1 hv2 with rfl | hv3
    · exact Or.inr ⟨55, by norm_num, by norm_num, by norm_num⟩
    · simp at hv3

/-- C2 counterexample: with `count = 1` but a primary response holding two
well-formed results, `geocode` returns both — `count` is only forwarded to
the provider in the request URL and is never enforced client-side, so the
result length exceeds `count`. -/
theorem geocode_count_not_enforced_cex :
    (geocode "Springfield" 1 (.ok twoResultsPayload) .exn).length = 2
    ∧ ¬((geocode "Springfield" 1 (.ok twoResultsPayload) .exn).length ≤ 1) := by
  have h : (geocode "Springfield" 1 (.ok twoResultsPayload) .exn).length = 2 := rfl
  refine ⟨h, ?_⟩
  rw [h]
  omega

/-- C2 (amended): `geocode` returns exactly the well-formed entries of the
winning provider's response, in the provider's order; entries whose
latitude or longitude is missing or not convertible by `float()` are
silently dropped, never fatal; the result is never longer than the winning
provider's result array, hence of length at most `count` whenever the
provider honours the requested `count` — but no client-side truncation to
`count` takes place (see the counterexample). -/
theorem geocode_returns_winning_provider_entries :
    (∀ (nm : String) (cnt : ℕ) (s : FetchOutcome) (fs : List (String × JVal)) (rs : List JVal),
        pyTruthy (jgetD fs "error") = false → jgetD fs "results" = .arr rs →
        rs.filterMap (parseOpenMeteoEntry nm) ≠ [] →
        geocode nm cnt (.ok (.obj fs)) s = rs.filterMap (parseOpenMeteoEntry nm)
          ∧ (geocode nm cnt (.ok (.obj fs)) s).length ≤ rs.length
          ∧ (rs.length ≤ cnt → (geocode nm cnt (.ok (.obj fs)) s).length ≤ cnt))
    ∧ (∀ (nm : String) (cnt : ℕ) (p : FetchOutcome) (rs2 : List JVal),
        geoOpenMeteo nm p = .error () ∨ geoOpenMeteo nm p = .ok [] →
        geocode nm cnt p (.ok (.arr rs2)) = rs2.filterMap (parseNominatimEntry nm)
          ∧ (geocode nm cnt p (.ok (.arr rs2))).length ≤ rs2.length)
    ∧ (∀ (nm : String) (fs : List (String × JVal)) (v : JVal),
        jfind fs "latitude" = some v → pyFloat v = none →
        parseOpenMeteoEntry nm (.obj fs) = none)
    ∧ (∀ (nm : String) (fs : List (String × JVal)) (v : JVal),
        jfind fs "longitude" = some v → pyFloat v = none →
        parseOpenMeteoEntry nm (.obj fs) = none)
    ∧ (∀ (nm : String) (fs : List (String × JVal)),
        jfind fs "latitude" = none → parseOpenMeteoEntry nm (.obj fs) = none)
    ∧ (∀ (nm : String) (fs : List (String × JVal)),
        jfind fs "longitude" = none → parseOpenMeteoEntry nm (.obj fs) = none) := by
  refine ⟨?_, ?_, ?_, ?_, ?_, ?_⟩
  · intro nm cnt s fs rs herr hres hne
    have hparse : geoOpenMeteo nm (.ok (.obj fs)) = .ok (rs.filterMap (parseOpenMeteoEntry nm)) := by
      simp only [geoOpenMeteo, geoOpenMeteoParse, herr, hres, pyOr_arr]
      simp
    have hg : geocode nm cnt (.ok (.obj fs)) s = rs.filterMap (parseOpenMeteoEntry nm) := by
      simp [geocode, hparse, isEmpty_false_of_ne_nil hne]
    have hlen : (geocode nm cnt (.ok (.obj fs)) s).length ≤ rs.length := by
      rw [hg]
      exact List.length_filterMap_le _ _
    exact ⟨hg, hlen, fun hcnt => le_trans hlen hcnt⟩
  · intro nm cnt p rs2 hp
    have hfb : geocodeFallback nm (.ok (.arr rs2)) = rs2.filterMap (parseNominatimEntry nm) := by
      simp [geocodeFallback, geoNominatim, geoNominatimParse]
    have hg : geocode nm cnt p (.ok (.arr rs2)) = rs2.filterMap (parseNominatimEntry nm) := by
      rcases hp with h | h <;> simp [geocode, h, hfb]
    refine ⟨hg, ?_⟩
    rw [hg]
    exact List.length_filterMap_le _ _
  · intro nm fs v hlat hbad
    cases hlon : jfind fs "longitude" with
    | none => simp [parseOpenMeteoEntry, hlat, hlon]
    | some lv => simp [parseOpenMeteoEntry, hlat, hlon, hbad]
  · intro nm fs v hlon hbad
    cases hlat : jfind fs "latitude" with
    | none => simp [parseOpenMeteoEntry, hlat, hlon]
    | some lv =>
      cases hpf : pyFloat lv with
      | none => simp [parseOpenMeteoEntry, hlat, hlon, hpf]
      | some q => simp [parseOpenMeteoEntry, hlat, hlon, hpf, hbad]
  · intro nm fs hlat
    cases hlon : jfind fs "longitude" with
    | none => simp [parseOpenMeteoEntry, hlat, hlon]
    | some lv => simp [parseOpenMeteoEntry, hlat, hlon]
  · intro nm fs hlon
    cases hlat : jfind fs "latitude" with
    | none => simp [parseOpenMeteoEntry, hlat, hlon]
    | some lv => simp [parseOpenMeteoEntry, hlat, hlon]

/-- Witness for C2 (amended): the malformed entry is dropped and the
well-formed one is returned, mapped into a `GeoResult`. -/
theorem geocode_returns_winning_provider_entries_witness :
    geocode "Springfield" 5 (.ok (.obj mixedResultsPayloadFields)) .exn =
      [{ name := "Springfield", latitude := 1, longitude := 2,
         country := none, admin1 := none }] := by
  have h := (geocode_returns_winning_provider_entries.1 "Springfield" 5 .exn
    mixedResultsPayloadFields
    [JVal.obj [("name", JVal.str "Springfield"), ("latitude", JVal.num 1),
      ("longitude", JVal.num 2)],
     JVal.obj [("name", JVal.str "Bad"), ("latitude", JVal.null),
      ("longitude", JVal.num 4)]]
    rfl rfl (by decide)).1
  rw [h]
  rfl
